import Mathlib

/-
Verification of the peaqnetwork/cumulus block-announcement subsystem
specification against the repository artifacts.

The repository ships two artifacts: a generated rustdoc implementors table
(src/implementors/core/convert/trait.TryFrom.js) and an operator README.
The executable protocol logic (attestation codec, announcement validator,
sync coordinator, equivocation guard) is not present under src/; only its
rustdoc declaration (TryFrom of CollationSecondedSignal for
BlockAnnounceData) is. Those components are therefore modelled from the
specification text, as marked on each definition. The implementors table
and the registration script are embedded directly from the JavaScript
source.
-/

namespace Cumulus

abbrev Hash := Nat
abbrev ValidatorId := Nat
abbrev BlockNumber := Nat
abbrev Signature := Nat
abbrev Bytes := List Nat

/-- Modelled from the spec: §3 SecondedAttestation — proof that a relay-chain
validator seconded a candidate at a relay parent; attributes: validator
identity, relay-parent hash, candidate hash, signature over
(relay-parent, candidate hash). -/
structure SecondedAttestation where
  validator : ValidatorId
  relayParent : Hash
  candidateHash : Hash
  signature : Signature
  deriving DecidableEq, Repr

/-- Modelled from the spec: §3 CandidateBlock header — parent hash, block
number, state root, extrinsics root (the opaque payload plays no role in
the validation rules and is omitted from the header view). -/
structure Header where
  parentHash : Hash
  number : BlockNumber
  stateRoot : Hash
  extrinsicsRoot : Hash
  deriving DecidableEq, Repr

/-- Modelled from the spec: a block is identified by its header hash; the
hash is an injective pairing of the header fields. -/
def headerHash (h : Header) : Hash :=
  Nat.pair h.parentHash (Nat.pair h.number (Nat.pair h.stateRoot h.extrinsicsRoot))

/-- Modelled from the spec: §3 AnnouncementMessage — a candidate header plus
zero-or-one seconded attestation. -/
structure AnnouncementMessage where
  header : Header
  attestation : Option SecondedAttestation
  deriving DecidableEq, Repr

/-- Modelled from the spec: §3 RelayParentContext — the validator assignment
at a given relay parent: each active validator with its registered key,
and the finality status of that relay block. -/
structure RelayParentContext where
  validators : List (ValidatorId × Nat)
  finalized : Bool
  deriving DecidableEq, Repr

/-- Modelled from the spec: §4.3 Relay-Chain View — read-only map from relay
parent hashes to contexts; pruned or unknown parents are simply absent. -/
structure RelayChainView where
  contexts : List (Hash × RelayParentContext)
  deriving DecidableEq, Repr

/-- Modelled from the spec: §4.3 — resolve a relay parent; lookups against
pruned parents fail explicitly with none, never silently succeed. -/
def RelayChainView.lookup (v : RelayChainView) (rp : Hash) : Option RelayParentContext :=
  (v.contexts.find? (fun p => p.1 == rp)).map Prod.snd

/-- Modelled from the spec: §4.3 validators_at — the set of validators
assigned to the parachain at a relay parent, or none when not found. -/
def RelayChainView.validators_at (v : RelayChainView) (rp : Hash) :
    Option (List ValidatorId) :=
  (v.lookup rp).map (fun c => c.validators.map Prod.fst)

/-- Modelled from the spec: the signature scheme over (relay-parent,
candidate hash) under a registered key, abstracted as an injective pairing:
a signature verifies exactly when it equals this value. -/
def mkSig (key rp ch : Nat) : Signature :=
  Nat.pair key (Nat.pair rp ch)

/-- Modelled from the spec: §7 rejection taxonomy for validated
announcements. -/
inductive RejectReason where
  | UnknownRelayParent
  | UnauthorizedValidator
  | BadSignature
  | CandidateMismatch
  deriving DecidableEq, Repr

/-- Modelled from the spec: §4.2 validation outcome. -/
inductive Outcome where
  | Accepted
  | AcceptedProvisional
  | Rejected (r : RejectReason)
  deriving DecidableEq, Repr

/-- Modelled from the spec: §4.2 Announcement Validator — no attestation
gives AcceptedProvisional; otherwise resolve the relay parent (failure:
UnknownRelayParent), check the validator is active there (failure:
UnauthorizedValidator), verify the signature (failure: BadSignature),
check the attested candidate hash matches the announced header (failure:
CandidateMismatch), and accept when all checks pass. -/
def validate (msg : AnnouncementMessage) (view : RelayChainView) : Outcome :=
  match msg.attestation with
  | none => .AcceptedProvisional
  | some att =>
    match view.lookup att.relayParent with
    | none => .Rejected .UnknownRelayParent
    | some ctx =>
      match ctx.validators.find? (fun p => p.1 == att.validator) with
      | none => .Rejected .UnauthorizedValidator
      | some vk =>
        if att.signature = mkSig vk.2 att.relayParent att.candidateHash then
          if att.candidateHash = headerHash msg.header then .Accepted
          else .Rejected .CandidateMismatch
        else .Rejected .BadSignature

/-- Modelled from the spec: §4.1 and §7 — decoding failure taxonomy: a
malformed length-prefixed field, or an unknown wire version. -/
inductive DecodeError where
  | malformed
  | unknownVersion
  deriving DecidableEq, Repr

/-- Modelled from the spec: §6 — the attestation wire format is versioned. -/
def attestationVersion : Nat := 1

/-- Modelled from the spec: §6 — the announcement wire format is versioned. -/
def announcementVersion : Nat := 1

/-- Base-256 little-endian digits of a natural number. -/
def natToBytes : Nat → List Nat
  | 0 => []
  | n + 1 => ((n + 1) % 256) :: natToBytes ((n + 1) / 256)
decreasing_by exact Nat.div_lt_self (Nat.succ_pos n) (by decide)

/-- Value of a base-256 little-endian digit list. -/
def bytesToNat : List Nat → Nat
  | [] => 0
  | b :: bs => b + 256 * bytesToNat bs

/-- Modelled from the spec: §4.1 — a length-prefixed field: the byte count
followed by the digits. -/
def encodeField (n : Nat) : Bytes :=
  (natToBytes n).length :: natToBytes n

/-- Modelled from the spec: §4.1 — read one length-prefixed field; when the
declared length exceeds the remaining input the field is malformed and
decoding fails explicitly rather than silently truncating. -/
def decodeField : Bytes → Option (Nat × Bytes)
  | [] => none
  | len :: rest =>
    if len ≤ rest.length then some (bytesToNat (rest.take len), rest.drop len)
    else none

/-- Modelled from the spec: §4.1 Attestation Codec — encode: version tag then
the four length-prefixed fields. -/
def encodeAttestation (a : SecondedAttestation) : Bytes :=
  attestationVersion ::
    (encodeField a.validator ++ encodeField a.relayParent ++
      encodeField a.candidateHash ++ encodeField a.signature)

/-- Modelled from the spec: §4.1 Attestation Codec — decode: reject an
unknown version tag, then read the four length-prefixed fields, rejecting
malformed fields and trailing bytes; no signature verification happens
here. -/
def decodeAttestation : Bytes → Except DecodeError SecondedAttestation
  | [] => .error .malformed
  | v :: rest =>
    if v = attestationVersion then
      match decodeField rest with
      | none => .error .malformed
      | some (val, r1) =>
        match decodeField r1 with
        | none => .error .malformed
        | some (rp, r2) =>
          match decodeField r2 with
          | none => .error .malformed
          | some (ch, r3) =>
            match decodeField r3 with
            | none => .error .malformed
            | some (sig, r4) =>
              if r4 = [] then .ok ⟨val, rp, ch, sig⟩ else .error .malformed
    else .error .unknownVersion

/-- Modelled from the spec: §6 — decode the four header fields of a wire
announcement. -/
def decodeHeader (bs : Bytes) : Option (Header × Bytes) :=
  match decodeField bs with
  | none => none
  | some (ph, r1) =>
    match decodeField r1 with
    | none => none
    | some (num, r2) =>
      match decodeField r2 with
      | none => none
      | some (sr, r3) =>
        match decodeField r3 with
        | none => none
        | some (er, r4) => some (⟨ph, num, sr, er⟩, r4)

/-- Modelled from the spec: §6 wire AnnouncementMessage — version tag,
header fields, then a presence flag for the optional attestation block. -/
def decodeAnnouncement : Bytes → Except DecodeError AnnouncementMessage
  | [] => .error .malformed
  | v :: rest =>
    if v = announcementVersion then
      match decodeHeader rest with
      | none => .error .malformed
      | some (hd, r) =>
        match r with
        | [] => .error .malformed
        | 0 :: tail => if tail = [] then .ok ⟨hd, none⟩ else .error .malformed
        | 1 :: tail => (decodeAttestation tail).map (fun a => ⟨hd, some a⟩)
        | _ :: _ => .error .malformed
    else .error .unknownVersion

/-- Modelled from the spec: §3 PeerView — per-peer state: the authorized
best head, the separate unauthorized candidate slot, the outstanding fetch,
and the guard's violation counter. -/
structure PeerView where
  bestHead : Option (Hash × BlockNumber)
  provisional : Option (Hash × BlockNumber)
  pendingFetch : Option Hash
  violations : Nat
  deriving DecidableEq, Repr

/-- Block number of the authorized best head (zero when none is known). -/
def authNum (pv : PeerView) : Nat :=
  match pv.bestHead with
  | none => 0
  | some p => p.2

/-- Block number of the provisional head (zero when none is known). -/
def provNum (pv : PeerView) : Nat :=
  match pv.provisional with
  | none => 0
  | some p => p.2

/-- Modelled from the spec: §4.4 Sync Coordinator — apply one validated
outcome to a peer: Accepted moves the authorized best head only to a
strictly greater number and schedules a fetch when the parent is not
locally known; AcceptedProvisional records the candidate head in the
unauthorized slot only; Rejected leaves the heads alone and increments the
violation counter. -/
def applyOutcome (known : List Hash) (pv : PeerView) (msg : AnnouncementMessage) :
    Outcome → PeerView
  | .Accepted =>
    let h := headerHash msg.header
    let n := msg.header.number
    let best :=
      match pv.bestHead with
      | none => some (h, n)
      | some (bh, bn) => if bn < n then some (h, n) else some (bh, bn)
    let fetch := if msg.header.parentHash ∈ known then pv.pendingFetch else some h
    { pv with bestHead := best, pendingFetch := fetch }
  | .AcceptedProvisional =>
    { pv with provisional := some (headerHash msg.header, msg.header.number) }
  | .Rejected _ => { pv with violations := pv.violations + 1 }

/-- Modelled from the spec: §2 data flow — validate one announcement and
apply its outcome to the peer's view. -/
def processAnnouncement (view : RelayChainView) (known : List Hash)
    (pv : PeerView) (msg : AnnouncementMessage) : PeerView :=
  applyOutcome known pv msg (validate msg view)

/-- Modelled from the spec: §5 — announcements from one peer are validated
and applied in arrival order. -/
def processAll (view : RelayChainView) (known : List Hash)
    (pv : PeerView) (msgs : List AnnouncementMessage) : PeerView :=
  msgs.foldl (processAnnouncement view known) pv

/-- Modelled from the spec: §7 — a wire message that fails to decode is
dropped with no state change; otherwise it is processed normally. -/
def handleMessage (view : RelayChainView) (known : List Hash)
    (pv : PeerView) (bs : Bytes) : PeerView :=
  match decodeAnnouncement bs with
  | .error _ => pv
  | .ok msg => processAnnouncement view known pv msg

/-- Modelled from the spec: §4.4 reconciliation rule — when a candidate hash
is reported included in the relay chain, a peer's unauthorized head
referencing that hash is promoted to authorized (no attestation is taken),
moving the authorized best head only when the promoted number is at least
the current authorized number. -/
def promoteIncluded (included : Hash) (pv : PeerView) : PeerView :=
  match pv.provisional with
  | none => pv
  | some (h, n) =>
    if h = included then
      if authNum pv ≤ n then { pv with bestHead := some (h, n), provisional := none }
      else pv
    else pv

/-- Modelled from the spec: §4.4 — the inclusion notification is applied to
every peer's view. -/
def promoteAll (included : Hash) (peers : List (Nat × PeerView)) :
    List (Nat × PeerView) :=
  peers.map (fun q => (q.1, promoteIncluded included q.2))

/-- Modelled from the spec: §6 — an equivocation report: validator, relay
parent, and the two conflicting candidate hashes. -/
structure EquivReport where
  validator : ValidatorId
  relayParent : Hash
  candidate1 : Hash
  candidate2 : Hash
  deriving DecidableEq, Repr

/-- Two attestations conflict when the same validator attests the same relay
parent with different candidate hashes. -/
def conflicts (a b : SecondedAttestation) : Bool :=
  a.validator == b.validator && a.relayParent == b.relayParent &&
    a.candidateHash != b.candidateHash

/-- Modelled from the spec: §4.5 — scan previously seen attestations for a
conflicting one and build the equivocation report. -/
def checkEquivocation (seen : List SecondedAttestation) (att : SecondedAttestation) :
    Option EquivReport :=
  (seen.find? (fun s => conflicts s att)).map
    (fun s => ⟨att.validator, att.relayParent, s.candidateHash, att.candidateHash⟩)

/-- Result of one guarded validation step: the validation outcome, the
equivocation report (if any), and the updated seen-attestation record. -/
structure GuardResult where
  outcome : Outcome
  report : Option EquivReport
  seen : List SecondedAttestation
  deriving DecidableEq, Repr

/-- Modelled from the spec: §4.5 Equivocation Guard — equivocation is
recorded as a side signal for the reporting collaborator while the
announcement itself is validated by the normal rules; detection never by
itself changes the outcome. -/
def guardStep (seen : List SecondedAttestation) (msg : AnnouncementMessage)
    (view : RelayChainView) : GuardResult :=
  match msg.attestation with
  | none => ⟨validate msg view, none, seen⟩
  | some att => ⟨validate msg view, checkEquivocation seen att, att :: seen⟩

/-- One entry of the generated implementors table in
src/implementors/core/convert/trait.TryFrom.js: each JSON object there has
exactly the fields "text", "synthetic" and "types", captured one-to-one by
this structure. -/
structure ImplEntry where
  text : String
  synthetic : Bool
  types : List String
  deriving DecidableEq, Repr

/-- The implementors table built by the script, embedded verbatim: each
crate name mapped to its list of entries, in source order. -/
def implementors : List (String × List ImplEntry) := [
  ("canvas_kusama_runtime",
   [
    ⟨"impl <a class=\"trait\" href=\"https://doc.rust-lang.org/1.59.0/core/convert/trait.TryFrom.html\" title=\"trait core::convert::TryFrom\">TryFrom</a>&lt;<a class=\"enum\" href=\"canvas_kusama_runtime/enum.OriginCaller.html\" title=\"enum canvas_kusama_runtime::OriginCaller\">OriginCaller</a>&gt; for Origin&lt;<a class=\"struct\" href=\"canvas_kusama_runtime/struct.Runtime.html\" title=\"struct canvas_kusama_runtime::Runtime\">Runtime</a>&gt;",
     false, ["frame_system::pallet::Origin"]⟩,
    ⟨"impl <a class=\"trait\" href=\"https://doc.rust-lang.org/1.59.0/core/convert/trait.TryFrom.html\" title=\"trait core::convert::TryFrom\">TryFrom</a>&lt;<a class=\"enum\" href=\"canvas_kusama_runtime/enum.OriginCaller.html\" title=\"enum canvas_kusama_runtime::OriginCaller\">OriginCaller</a>&gt; for Origin",
     false, ["pallet_xcm::pallet::Origin"]⟩,
    ⟨"impl <a class=\"trait\" href=\"https://doc.rust-lang.org/1.59.0/core/convert/trait.TryFrom.html\" title=\"trait core::convert::TryFrom\">TryFrom</a>&lt;<a class=\"enum\" href=\"canvas_kusama_runtime/enum.OriginCaller.html\" title=\"enum canvas_kusama_runtime::OriginCaller\">OriginCaller</a>&gt; for <a class=\"enum\" href=\"cumulus_pallet_xcm/pallet/enum.Origin.html\" title=\"enum cumulus_pallet_xcm::pallet::Origin\">Origin</a>",
     false, ["cumulus_pallet_xcm::pallet::Origin"]⟩
   ]),
  ("cumulus_client_network",
   [
    ⟨"impl <a class=\"trait\" href=\"https://doc.rust-lang.org/1.59.0/core/convert/trait.TryFrom.html\" title=\"trait core::convert::TryFrom\">TryFrom</a>&lt;&amp;\x27_ CollationSecondedSignal&gt; for <a class=\"struct\" href=\"cumulus_client_network/struct.BlockAnnounceData.html\" title=\"struct cumulus_client_network::BlockAnnounceData\">BlockAnnounceData</a>",
     false, ["cumulus_client_network::BlockAnnounceData"]⟩
   ]),
  ("cumulus_test_runtime",
   [
    ⟨"impl <a class=\"trait\" href=\"https://doc.rust-lang.org/1.59.0/core/convert/trait.TryFrom.html\" title=\"trait core::convert::TryFrom\">TryFrom</a>&lt;<a class=\"enum\" href=\"cumulus_test_runtime/enum.OriginCaller.html\" title=\"enum cumulus_test_runtime::OriginCaller\">OriginCaller</a>&gt; for Origin&lt;<a class=\"struct\" href=\"cumulus_test_runtime/struct.Runtime.html\" title=\"struct cumulus_test_runtime::Runtime\">Runtime</a>&gt;",
     false, ["frame_system::pallet::Origin"]⟩
   ]),
  ("parachain_template_runtime",
   [
    ⟨"impl <a class=\"trait\" href=\"https://doc.rust-lang.org/1.59.0/core/convert/trait.TryFrom.html\" title=\"trait core::convert::TryFrom\">TryFrom</a>&lt;<a class=\"enum\" href=\"parachain_template_runtime/enum.OriginCaller.html\" title=\"enum parachain_template_runtime::OriginCaller\">OriginCaller</a>&gt; for Origin&lt;<a class=\"struct\" href=\"parachain_template_runtime/struct.Runtime.html\" title=\"struct parachain_template_runtime::Runtime\">Runtime</a>&gt;",
     false, ["frame_system::pallet::Origin"]⟩,
    ⟨"impl <a class=\"trait\" href=\"https://doc.rust-lang.org/1.59.0/core/convert/trait.TryFrom.html\" title=\"trait core::convert::TryFrom\">TryFrom</a>&lt;<a class=\"enum\" href=\"parachain_template_runtime/enum.OriginCaller.html\" title=\"enum parachain_template_runtime::OriginCaller\">OriginCaller</a>&gt; for Origin",
     false, ["pallet_xcm::pallet::Origin"]⟩,
    ⟨"impl <a class=\"trait\" href=\"https://doc.rust-lang.org/1.59.0/core/convert/trait.TryFrom.html\" title=\"trait core::convert::TryFrom\">TryFrom</a>&lt;<a class=\"enum\" href=\"parachain_template_runtime/enum.OriginCaller.html\" title=\"enum parachain_template_runtime::OriginCaller\">OriginCaller</a>&gt; for <a class=\"enum\" href=\"cumulus_pallet_xcm/pallet/enum.Origin.html\" title=\"enum cumulus_pallet_xcm::pallet::Origin\">Origin</a>",
     false, ["cumulus_pallet_xcm::pallet::Origin"]⟩
   ]),
  ("rococo_parachain_runtime",
   [
    ⟨"impl <a class=\"trait\" href=\"https://doc.rust-lang.org/1.59.0/core/convert/trait.TryFrom.html\" title=\"trait core::convert::TryFrom\">TryFrom</a>&lt;<a class=\"enum\" href=\"rococo_parachain_runtime/enum.OriginCaller.html\" title=\"enum rococo_parachain_runtime::OriginCaller\">OriginCaller</a>&gt; for Origin&lt;<a class=\"struct\" href=\"rococo_parachain_runtime/struct.Runtime.html\" title=\"struct rococo_parachain_runtime::Runtime\">Runtime</a>&gt;",
     false, ["frame_system::pallet::Origin"]⟩,
    ⟨"impl <a class=\"trait\" href=\"https://doc.rust-lang.org/1.59.0/core/convert/trait.TryFrom.html\" title=\"trait core::convert::TryFrom\">TryFrom</a>&lt;<a class=\"enum\" href=\"rococo_parachain_runtime/enum.OriginCaller.html\" title=\"enum rococo_parachain_runtime::OriginCaller\">OriginCaller</a>&gt; for Origin",
     false, ["pallet_xcm::pallet::Origin"]⟩,
    ⟨"impl <a class=\"trait\" href=\"https://doc.rust-lang.org/1.59.0/core/convert/trait.TryFrom.html\" title=\"trait core::convert::TryFrom\">TryFrom</a>&lt;<a class=\"enum\" href=\"rococo_parachain_runtime/enum.OriginCaller.html\" title=\"enum rococo_parachain_runtime::OriginCaller\">OriginCaller</a>&gt; for <a class=\"enum\" href=\"cumulus_pallet_xcm/pallet/enum.Origin.html\" title=\"enum cumulus_pallet_xcm::pallet::Origin\">Origin</a>",
     false, ["cumulus_pallet_xcm::pallet::Origin"]⟩
   ]),
  ("seedling_runtime",
   [
    ⟨"impl <a class=\"trait\" href=\"https://doc.rust-lang.org/1.59.0/core/convert/trait.TryFrom.html\" title=\"trait core::convert::TryFrom\">TryFrom</a>&lt;<a class=\"enum\" href=\"seedling_runtime/enum.OriginCaller.html\" title=\"enum seedling_runtime::OriginCaller\">OriginCaller</a>&gt; for Origin&lt;<a class=\"struct\" href=\"seedling_runtime/struct.Runtime.html\" title=\"struct seedling_runtime::Runtime\">Runtime</a>&gt;",
     false, ["frame_system::pallet::Origin"]⟩
   ]),
  ("shell_runtime",
   [
    ⟨"impl <a class=\"trait\" href=\"https://doc.rust-lang.org/1.59.0/core/convert/trait.TryFrom.html\" title=\"trait core::convert::TryFrom\">TryFrom</a>&lt;<a class=\"enum\" href=\"shell_runtime/enum.OriginCaller.html\" title=\"enum shell_runtime::OriginCaller\">OriginCaller</a>&gt; for Origin&lt;<a class=\"struct\" href=\"shell_runtime/struct.Runtime.html\" title=\"struct shell_runtime::Runtime\">Runtime</a>&gt;",
     false, ["frame_system::pallet::Origin"]⟩,
    ⟨"impl <a class=\"trait\" href=\"https://doc.rust-lang.org/1.59.0/core/convert/trait.TryFrom.html\" title=\"trait core::convert::TryFrom\">TryFrom</a>&lt;<a class=\"enum\" href=\"shell_runtime/enum.OriginCaller.html\" title=\"enum shell_runtime::OriginCaller\">OriginCaller</a>&gt; for <a class=\"enum\" href=\"cumulus_pallet_xcm/pallet/enum.Origin.html\" title=\"enum cumulus_pallet_xcm::pallet::Origin\">Origin</a>",
     false, ["cumulus_pallet_xcm::pallet::Origin"]⟩
   ]),
  ("statemine_runtime",
   [
    ⟨"impl <a class=\"trait\" href=\"https://doc.rust-lang.org/1.59.0/core/convert/trait.TryFrom.html\" title=\"trait core::convert::TryFrom\">TryFrom</a>&lt;<a class=\"enum\" href=\"statemine_runtime/enum.OriginCaller.html\" title=\"enum statemine_runtime::OriginCaller\">OriginCaller</a>&gt; for Origin&lt;<a class=\"struct\" href=\"statemine_runtime/struct.Runtime.html\" title=\"struct statemine_runtime::Runtime\">Runtime</a>&gt;",
     false, ["frame_system::pallet::Origin"]⟩,
    ⟨"impl <a class=\"trait\" href=\"https://doc.rust-lang.org/1.59.0/core/convert/trait.TryFrom.html\" title=\"trait core::convert::TryFrom\">TryFrom</a>&lt;<a class=\"enum\" href=\"statemine_runtime/enum.OriginCaller.html\" title=\"enum statemine_runtime::OriginCaller\">OriginCaller</a>&gt; for Origin",
     false, ["pallet_xcm::pallet::Origin"]⟩,
    ⟨"impl <a class=\"trait\" href=\"https://doc.rust-lang.org/1.59.0/core/convert/trait.TryFrom.html\" title=\"trait core::convert::TryFrom\">TryFrom</a>&lt;<a class=\"enum\" href=\"statemine_runtime/enum.OriginCaller.html\" title=\"enum statemine_runtime::OriginCaller\">OriginCaller</a>&gt; for <a class=\"enum\" href=\"cumulus_pallet_xcm/pallet/enum.Origin.html\" title=\"enum cumulus_pallet_xcm::pallet::Origin\">Origin</a>",
     false, ["cumulus_pallet_xcm::pallet::Origin"]⟩
   ]),
  ("statemint_runtime",
   [
    ⟨"impl <a class=\"trait\" href=\"https://doc.rust-lang.org/1.59.0/core/convert/trait.TryFrom.html\" title=\"trait core::convert::TryFrom\">TryFrom</a>&lt;<a class=\"enum\" href=\"statemint_runtime/enum.OriginCaller.html\" title=\"enum statemint_runtime::OriginCaller\">OriginCaller</a>&gt; for Origin&lt;<a class=\"struct\" href=\"statemint_runtime/struct.Runtime.html\" title=\"struct statemint_runtime::Runtime\">Runtime</a>&gt;",
     false, ["frame_system::pallet::Origin"]⟩,
    ⟨"impl <a class=\"trait\" href=\"https://doc.rust-lang.org/1.59.0/core/convert/trait.TryFrom.html\" title=\"trait core::convert::TryFrom\">TryFrom</a>&lt;<a class=\"enum\" href=\"statemint_runtime/enum.OriginCaller.html\" title=\"enum statemint_runtime::OriginCaller\">OriginCaller</a>&gt; for Origin",
     false, ["pallet_xcm::pallet::Origin"]⟩,
    ⟨"impl <a class=\"trait\" href=\"https://doc.rust-lang.org/1.59.0/core/convert/trait.TryFrom.html\" title=\"trait core::convert::TryFrom\">TryFrom</a>&lt;<a class=\"enum\" href=\"statemint_runtime/enum.OriginCaller.html\" title=\"enum statemint_runtime::OriginCaller\">OriginCaller</a>&gt; for <a class=\"enum\" href=\"cumulus_pallet_xcm/pallet/enum.Origin.html\" title=\"enum cumulus_pallet_xcm::pallet::Origin\">Origin</a>",
     false, ["cumulus_pallet_xcm::pallet::Origin"]⟩
   ]),
  ("westmint_runtime",
   [
    ⟨"impl <a class=\"trait\" href=\"https://doc.rust-lang.org/1.59.0/core/convert/trait.TryFrom.html\" title=\"trait core::convert::TryFrom\">TryFrom</a>&lt;<a class=\"enum\" href=\"westmint_runtime/enum.OriginCaller.html\" title=\"enum westmint_runtime::OriginCaller\">OriginCaller</a>&gt; for Origin&lt;<a class=\"struct\" href=\"westmint_runtime/struct.Runtime.html\" title=\"struct westmint_runtime::Runtime\">Runtime</a>&gt;",
     false, ["frame_system::pallet::Origin"]⟩,
    ⟨"impl <a class=\"trait\" href=\"https://doc.rust-lang.org/1.59.0/core/convert/trait.TryFrom.html\" title=\"trait core::convert::TryFrom\">TryFrom</a>&lt;<a class=\"enum\" href=\"westmint_runtime/enum.OriginCaller.html\" title=\"enum westmint_runtime::OriginCaller\">OriginCaller</a>&gt; for Origin",
     false, ["pallet_xcm::pallet::Origin"]⟩,
    ⟨"impl <a class=\"trait\" href=\"https://doc.rust-lang.org/1.59.0/core/convert/trait.TryFrom.html\" title=\"trait core::convert::TryFrom\">TryFrom</a>&lt;<a class=\"enum\" href=\"westmint_runtime/enum.OriginCaller.html\" title=\"enum westmint_runtime::OriginCaller\">OriginCaller</a>&gt; for <a class=\"enum\" href=\"cumulus_pallet_xcm/pallet/enum.Origin.html\" title=\"enum cumulus_pallet_xcm::pallet::Origin\">Origin</a>",
     false, ["cumulus_pallet_xcm::pallet::Origin"]⟩
   ])
]

/-- Observable effect of one run of the registration script: the arguments
passed to window.register_implementors (in order), and the final value of
window.pending_implementors. -/
structure ScriptEffect where
  hookCalls : List (List (String × List ImplEntry))
  pending_implementors : Option (List (String × List ImplEntry))
  deriving DecidableEq

/-- The tail of src/implementors/core/convert/trait.TryFrom.js: when
window.register_implementors is set (the rustdoc pages set it to a
function, which is truthy) it is called with the table; otherwise the
table is stored in window.pending_implementors. hookSet models whether the
hook is present, pending0 the prior value of the pending slot. -/
def runRegistration (hookSet : Bool) (pending0 : Option (List (String × List ImplEntry))) :
    ScriptEffect :=
  if hookSet then ⟨[implementors], pending0⟩
  else ⟨[], some implementors⟩

/-- Bool substring check on character lists. -/
def hasSub (needle : List Char) : List Char → Bool
  | [] => needle.isEmpty
  | c :: rest => needle.isPrefixOf (c :: rest) || hasSub needle rest

/-- Applying one outcome never lowers the authorized best-head number. -/
theorem authNum_applyOutcome_le (known : List Hash) (pv : PeerView)
    (msg : AnnouncementMessage) (o : Outcome) :
    authNum pv ≤ authNum (applyOutcome known pv msg o) := by
  cases o with
  | Accepted =>
    cases hb : pv.bestHead with
    | none => simp [applyOutcome, authNum, hb]
    | some p =>
      obtain ⟨bh, bn⟩ := p
      by_cases hlt : bn < msg.header.number
      · simp [applyOutcome, authNum, hb, hlt]
        exact Nat.le_of_lt hlt
      · simp [applyOutcome, authNum, hb, hlt]
  | AcceptedProvisional => simp [applyOutcome, authNum]
  | Rejected r => simp [applyOutcome, authNum]

/-- Sequential processing never lowers the authorized best-head number. -/
theorem authNum_processAll_le (view : RelayChainView) (known : List Hash)
    (pv : PeerView) (msgs : List AnnouncementMessage) :
    authNum pv ≤ authNum (processAll view known pv msgs) := by
  induction msgs generalizing pv with
  | nil => simp [processAll]
  | cons m ms ih =>
    simp only [processAll, List.foldl_cons]
    exact le_trans (authNum_applyOutcome_le known pv m (validate m view)) (ih _)

/-- C1: for every peer and every valid sequence of accepted announcements
processed by the Sync Coordinator, the authorized best-head block number is
monotonically non-decreasing; a provisional (unauthorized) head carries no
such guarantee — there is a concrete step that overwrites it with a lower
number. -/
theorem authorized_bestHead_monotone :
    (∀ (view : RelayChainView) (known : List Hash) (pv : PeerView)
        (msgs : List AnnouncementMessage),
      authNum pv ≤ authNum (processAll view known pv msgs))
  ∧ (∃ (view : RelayChainView) (known : List Hash) (pv : PeerView)
        (msg : AnnouncementMessage),
      provNum (processAnnouncement view known pv msg) < provNum pv) :=
  ⟨fun view known pv msgs => authNum_processAll_le view known pv msgs,
   ⟨⟨[]⟩, [], ⟨none, some (0, 5), none, 0⟩, ⟨⟨0, 3, 0, 0⟩, none⟩, by decide⟩⟩

/-- C2: validation is a pure function of the announcement and the queried
relay-chain snapshot — two runs on the same pair yield the same outcome. -/
theorem validate_deterministic (msg : AnnouncementMessage) (view : RelayChainView)
    (o₁ o₂ : Outcome) (h₁ : validate msg view = o₁) (h₂ : validate msg view = o₂) :
    o₁ = o₂ := by
  rw [← h₁, ← h₂]

/-- Witness for C2 at a concrete announcement and view. -/
theorem validate_deterministic_witness :
    validate ⟨⟨0, 0, 0, 0⟩, none⟩ ⟨[]⟩ = Outcome.AcceptedProvisional :=
  validate_deterministic ⟨⟨0, 0, 0, 0⟩, none⟩ ⟨[]⟩ _ _ rfl (by decide)

/-- C3: an announcement whose attestation references a relay parent the
Relay-Chain View cannot resolve is always Rejected(UnknownRelayParent) and
never Accepted. -/
theorem unknownRelayParent_rejected (msg : AnnouncementMessage)
    (view : RelayChainView) (att : SecondedAttestation)
    (ha : msg.attestation = some att)
    (hv : view.validators_at att.relayParent = none) :
    validate msg view = .Rejected .UnknownRelayParent ∧
      validate msg view ≠ .Accepted := by
  have hl : view.lookup att.relayParent = none := by
    simpa [RelayChainView.validators_at] using hv
  have h : validate msg view = .Rejected .UnknownRelayParent := by
    simp [validate, ha, hl]
  exact ⟨h, by rw [h]; simp⟩

/-- Witness for C3: an attestation anchored at relay parent 7 against the
empty view. -/
theorem unknownRelayParent_rejected_witness :
    validate ⟨⟨0, 0, 0, 0⟩, some ⟨0, 7, 0, 0⟩⟩ ⟨[]⟩
        = .Rejected .UnknownRelayParent ∧
      validate ⟨⟨0, 0, 0, 0⟩, some ⟨0, 7, 0, 0⟩⟩ ⟨[]⟩ ≠ .Accepted :=
  unknownRelayParent_rejected _ ⟨[]⟩ ⟨0, 7, 0, 0⟩ rfl (by decide)

/-- C4: an announcement without an attestation validates to
AcceptedProvisional, and applying that outcome records the header only in
the unauthorized candidate slot: the authorized best head and the pending
fetch are unchanged. -/
theorem no_attestation_provisional (view : RelayChainView) (known : List Hash)
    (pv : PeerView) (msg : AnnouncementMessage) (h : msg.attestation = none) :
    validate msg view = .AcceptedProvisional
  ∧ (processAnnouncement view known pv msg).bestHead = pv.bestHead
  ∧ (processAnnouncement view known pv msg).pendingFetch = pv.pendingFetch
  ∧ (processAnnouncement view known pv msg).provisional
      = some (headerHash msg.header, msg.header.number) := by
  have hv : validate msg view = .AcceptedProvisional := by simp [validate, h]
  refine ⟨hv, ?_, ?_, ?_⟩ <;> simp [processAnnouncement, hv, applyOutcome]

/-- Witness for C4 at a concrete attestation-free announcement. -/
theorem no_attestation_provisional_witness :
    validate ⟨⟨1, 9, 2, 3⟩, none⟩ ⟨[]⟩ = .AcceptedProvisional
  ∧ (processAnnouncement ⟨[]⟩ [] ⟨some (4, 4), none, none, 0⟩ ⟨⟨1, 9, 2, 3⟩, none⟩).bestHead
      = (⟨some (4, 4), none, none, 0⟩ : PeerView).bestHead
  ∧ (processAnnouncement ⟨[]⟩ [] ⟨some (4, 4), none, none, 0⟩ ⟨⟨1, 9, 2, 3⟩, none⟩).pendingFetch
      = (⟨some (4, 4), none, none, 0⟩ : PeerView).pendingFetch
  ∧ (processAnnouncement ⟨[]⟩ [] ⟨some (4, 4), none, none, 0⟩ ⟨⟨1, 9, 2, 3⟩, none⟩).provisional
      = some (headerHash ⟨1, 9, 2, 3⟩, 9) :=
  no_attestation_provisional ⟨[]⟩ [] ⟨some (4, 4), none, none, 0⟩ ⟨⟨1, 9, 2, 3⟩, none⟩ rfl

/-- C5: a Rejected outcome leaves the peer's heads untouched and changes
exactly the violation counter, and a message that fails decoding is dropped
with the whole peer state unchanged. -/
theorem rejected_and_decode_error_atomic (view : RelayChainView)
    (known : List Hash) (pv : PeerView) (msg : AnnouncementMessage)
    (r : RejectReason) (bs : Bytes) (e : DecodeError) :
    (validate msg view = .Rejected r →
      processAnnouncement view known pv msg
        = { pv with violations := pv.violations + 1 })
  ∧ (decodeAnnouncement bs = .error e → handleMessage view known pv bs = pv) := by
  constructor
  · intro h; simp [processAnnouncement, h, applyOutcome]
  · intro h; simp [handleMessage, h]

/-- Witness for C5: a rejected attested announcement against the empty view
and an empty (undecodable) wire message. -/
theorem rejected_and_decode_error_atomic_witness :
    processAnnouncement ⟨[]⟩ [] ⟨none, none, none, 0⟩ ⟨⟨0, 0, 0, 0⟩, some ⟨0, 0, 0, 0⟩⟩
      = { (⟨none, none, none, 0⟩ : PeerView) with violations := 0 + 1 }
  ∧ handleMessage ⟨[]⟩ [] ⟨none, none, none, 0⟩ [] = ⟨none, none, none, 0⟩ :=
  ⟨(rejected_and_decode_error_atomic ⟨[]⟩ [] ⟨none, none, none, 0⟩
      ⟨⟨0, 0, 0, 0⟩, some ⟨0, 0, 0, 0⟩⟩ .UnknownRelayParent [] .malformed).1 rfl,
   (rejected_and_decode_error_atomic ⟨[]⟩ [] ⟨none, none, none, 0⟩
      ⟨⟨0, 0, 0, 0⟩, some ⟨0, 0, 0, 0⟩⟩ .UnknownRelayParent [] .malformed).2 rfl⟩

/-- C6: an inclusion notification for a candidate hash promotes a peer's
unauthorized head referencing that hash to authorized — the promotion takes
no attestation — and the authorized best head moves to the promoted head
exactly when its number is at least the current authorized number; the
notification is applied to every peer. -/
theorem inclusion_promotes (pv : PeerView) (included h : Hash) (n : BlockNumber)
    (hp : pv.provisional = some (h, n)) (hh : h = included) :
    (authNum pv ≤ n →
      (promoteIncluded included pv).bestHead = some (h, n)
        ∧ (promoteIncluded included pv).provisional = none)
  ∧ (n < authNum pv → promoteIncluded included pv = pv)
  ∧ (∀ peers : List (Nat × PeerView),
      promoteAll included peers
        = peers.map (fun q => (q.1, promoteIncluded included q.2))) := by
  refine ⟨fun hle => ?_, fun hlt => ?_, fun peers => rfl⟩
  · simp [promoteIncluded, hp, hh, hle]
  · have hnle : ¬ authNum pv ≤ n := Nat.not_le.mpr hlt
    simp [promoteIncluded, hp, hh, hnle]

/-- Witness for C6: an unauthorized head (hash 5, number 10) is promoted
over an authorized head at number 4 when hash 5 is reported included. -/
theorem inclusion_promotes_witness :
    (promoteIncluded 5 ⟨some (9, 4), some (5, 10), none, 0⟩).bestHead = some (5, 10)
      ∧ (promoteIncluded 5 ⟨some (9, 4), some (5, 10), none, 0⟩).provisional = none :=
  (inclusion_promotes ⟨some (9, 4), some (5, 10), none, 0⟩ 5 5 10 rfl rfl).1 (by decide)

/-- Little-endian base-256 digits decode back to the encoded number. -/
theorem bytesToNat_natToBytes (n : Nat) : bytesToNat (natToBytes n) = n := by
  induction n using Nat.strong_induction_on with
  | _ n ih =>
    cases n with
    | zero => simp [natToBytes, bytesToNat]
    | succ m =>
      rw [natToBytes, bytesToNat]
      rw [ih ((m + 1) / 256) (Nat.div_lt_self (Nat.succ_pos m) (by decide))]
      omega

/-- A length-prefixed field decodes back to the encoded value, leaving the
remaining input untouched. -/
theorem decodeField_encodeField (n : Nat) (rest : Bytes) :
    decodeField (encodeField n ++ rest) = some (n, rest) := by
  simp only [encodeField, List.cons_append, decodeField]
  rw [if_pos (by simp)]
  rw [List.take_left, List.drop_left, bytesToNat_natToBytes]

/-- A lone length-prefixed field decodes back to the encoded value. -/
theorem decodeField_encodeField_nil (n : Nat) :
    decodeField (encodeField n) = some (n, []) := by
  simpa using decodeField_encodeField n []

/-- Decoding inverts encoding for every attestation, its signature field
included: the codec never inspects the signature. -/
theorem decodeAttestation_encodeAttestation (a : SecondedAttestation) :
    decodeAttestation (encodeAttestation a) = .ok a := by
  obtain ⟨val, rp, ch, sig⟩ := a
  simp [decodeAttestation, encodeAttestation, decodeField_encodeField,
    decodeField_encodeField_nil]

/-- C7: the attestation decoder is pure and total except for the declared
DecodeError — every input yields an attestation or an error; an unknown
version tag is rejected explicitly; a length-prefixed field whose declared
length exceeds the remaining input is rejected rather than silently
truncated; and decoding inverts encoding for every attestation regardless
of its signature field, so no signature verification happens in the
codec. -/
theorem codec_total_versioned_unsigned :
    (∀ bs : Bytes,
      (∃ a, decodeAttestation bs = .ok a) ∨ (∃ e, decodeAttestation bs = .error e))
  ∧ (∀ (v : Nat) (rest : Bytes), v ≠ attestationVersion →
      decodeAttestation (v :: rest) = .error .unknownVersion)
  ∧ (∀ (len : Nat) (tail : Bytes), tail.length < len →
      decodeField (len :: tail) = none)
  ∧ (∀ a : SecondedAttestation,
      decodeAttestation (encodeAttestation a) = .ok a) := by
  refine ⟨?_, ?_, ?_, decodeAttestation_encodeAttestation⟩
  · intro bs
    cases h : decodeAttestation bs with
    | ok a => exact .inl ⟨a, rfl⟩
    | error e => exact .inr ⟨e, rfl⟩
  · intro v rest hv
    simp [decodeAttestation, hv]
  · intro len tail h
    have hnle : ¬ len ≤ tail.length := Nat.not_le.mpr h
    simp [decodeField, hnle]

/-- Witness for C7: version tag 0 is rejected, a field declaring five bytes
with none following is rejected, and a concrete attestation round-trips. -/
theorem codec_total_versioned_unsigned_witness :
    decodeAttestation (0 :: [9]) = .error .unknownVersion
  ∧ decodeField (5 :: []) = none
  ∧ decodeAttestation (encodeAttestation ⟨1, 2, 3, 4⟩) = .ok ⟨1, 2, 3, 4⟩ :=
  ⟨codec_total_versioned_unsigned.2.1 0 [9] (by decide),
   codec_total_versioned_unsigned.2.2.1 5 [] (by decide),
   codec_total_versioned_unsigned.2.2.2 ⟨1, 2, 3, 4⟩⟩

/-- C8: two attestations from the same validator at the same relay parent
with different candidate hashes make the guard emit an equivocation report
naming the validator, the relay parent and both hashes, while each
announcement's outcome is exactly what the validator computes for it
independently — the guard never changes an outcome. -/
theorem equivocation_reported_outcomes_independent
    (seen : List SecondedAttestation) (view : RelayChainView)
    (msg₁ msg₂ : AnnouncementMessage) (a₁ a₂ : SecondedAttestation)
    (h₁ : msg₁.attestation = some a₁) (h₂ : msg₂.attestation = some a₂)
    (hv : a₁.validator = a₂.validator) (hr : a₁.relayParent = a₂.relayParent)
    (hc : a₁.candidateHash ≠ a₂.candidateHash) :
    (guardStep seen msg₁ view).outcome = validate msg₁ view
  ∧ (guardStep (guardStep seen msg₁ view).seen msg₂ view).outcome = validate msg₂ view
  ∧ (guardStep (guardStep seen msg₁ view).seen msg₂ view).report
      = some ⟨a₂.validator, a₂.relayParent, a₁.candidateHash, a₂.candidateHash⟩ := by
  have hseen : (guardStep seen msg₁ view).seen = a₁ :: seen := by
    simp [guardStep, h₁]
  have hco : conflicts a₁ a₂ = true := by
    simp [conflicts, hv, hr, hc]
  refine ⟨by simp [guardStep, h₁], by simp [guardStep, h₂], ?_⟩
  rw [hseen]
  simp only [guardStep, h₂, checkEquivocation]
  have hfind : List.find? (fun s => conflicts s a₂) (a₁ :: seen) = some a₁ :=
    List.find?_cons_of_pos seen hco
  rw [hfind]
  simp

/-- Witness for C8: validator 7 attests relay parent 3 with candidate
hashes 100 and then 200; the report names both hashes. -/
theorem equivocation_reported_outcomes_independent_witness :
    (guardStep (guardStep [] ⟨⟨0, 0, 0, 0⟩, some ⟨7, 3, 100, 0⟩⟩ ⟨[]⟩).seen
        ⟨⟨0, 0, 0, 0⟩, some ⟨7, 3, 200, 0⟩⟩ ⟨[]⟩).report
      = some ⟨7, 3, 100, 200⟩ :=
  (equivocation_reported_outcomes_independent [] ⟨[]⟩
    ⟨⟨0, 0, 0, 0⟩, some ⟨7, 3, 100, 0⟩⟩ ⟨⟨0, 0, 0, 0⟩, some ⟨7, 3, 200, 0⟩⟩
    ⟨7, 3, 100, 0⟩ ⟨7, 3, 200, 0⟩ rfl rfl rfl rfl (by decide)).2.2

/-- C9: one run of the registration script performs exactly one of two
mutually exclusive effects: when window.register_implementors is set it is
called exactly once, with the implementors table, and
window.pending_implementors keeps its prior value; otherwise the table is
assigned to window.pending_implementors and no call is made. -/
theorem registration_mutually_exclusive
    (pending0 : Option (List (String × List ImplEntry))) :
    (runRegistration true pending0).hookCalls = [implementors]
  ∧ (runRegistration true pending0).pending_implementors = pending0
  ∧ (runRegistration false pending0).hookCalls = []
  ∧ (runRegistration false pending0).pending_implementors = some implementors :=
  ⟨rfl, rfl, rfl, rfl⟩

/-- C10: every crate name in the implementors table maps to a non-empty
entry list, every entry has synthetic set to false, and every entry's text
is an impl of core's TryFrom trait; each entry carries exactly the fields
text, synthetic and types, which is the shape of ImplEntry the table is
built from. -/
theorem implementors_shape :
    ∀ p ∈ implementors, p.2 ≠ []
      ∧ ∀ e ∈ p.2, e.synthetic = false
          ∧ hasSub "TryFrom".toList e.text.toList = true
          ∧ "impl ".toList.isPrefixOf e.text.toList = true := by decide

/-- Witness for C10 at the second table entry (crate
cumulus_client_network). -/
theorem implementors_shape_witness :
    (implementors.get ⟨1, by decide⟩).2 ≠ []
  ∧ ∀ e ∈ (implementors.get ⟨1, by decide⟩).2, e.synthetic = false
      ∧ hasSub "TryFrom".toList e.text.toList = true
      ∧ "impl ".toList.isPrefixOf e.text.toList = true :=
  implementors_shape (implementors.get ⟨1, by decide⟩)
    (implementors.get_mem 1 (by decide))

end Cumulus
